import Mathlib

/-!
Verification development for the broadcast delivery engine of the
Pars_cto repository (backend). The definitions below are shallow
embeddings of the TypeScript source:

* `classifyTelegramError` — `src/backend/src/queue/jobHandlers/audience.handler.ts`,
  lines 91–126;
* the delivery-loop interpreter (`stepRecipient`, `runLoop`,
  `handleBroadcastJobModel`) — same file, lines 182–422;
* `calculateDelayModel` — `src/backend/src/services/broadcast/antiSpam.service.ts`;
* `updateCampaignStatusMeta` — `src/backend/src/services/broadcast/broadcast.service.ts`,
  lines 182–211;
* progress-reporter models — `src/backend/src/services/broadcast/progress.service.ts`.

External effects (Postgres writes, Redis, the Telegram client, `job.progress`)
are modelled by explicit oracles describing whether each effectful call
succeeds or throws, and by event traces recording what the code wrote.
-/

/-- Whether the pattern list is an initial segment of the text list
(character-for-character, as `String.prototype.startsWith` would check at one
position). -/
def listStartsWith : List Char → List Char → Bool
  | [], _ => true
  | _ :: _, [] => false
  | p :: ps, c :: cs => p == c && listStartsWith ps cs

/-- Whether the pattern occurs as a contiguous substring of the text, the
semantics of JavaScript `String.prototype.includes`. -/
def listContainsSub (pat : List Char) : List Char → Bool
  | [] => pat.isEmpty
  | c :: cs => listStartsWith pat (c :: cs) || listContainsSub pat cs

/-- JavaScript `s.includes(pat)` on Lean strings. -/
def strIncludes (s pat : String) : Bool :=
  listContainsSub pat.toList s.toList

/-- Longest run of decimal digits at the front of the list (the greedy
behaviour of the regex fragment `\d+`). -/
def takeDigits : List Char → List Char
  | [] => []
  | c :: cs => if c.isDigit then c :: takeDigits cs else []

/-- The digit pattern that follows the literal in `/FLOOD_WAIT_(\d+)/`. -/
def floodWaitLiteral : List Char := "FLOOD_WAIT_".toList

/-- Leftmost match of the regex `/FLOOD_WAIT_(\d+)/` over the text: at the
first position where the literal `FLOOD_WAIT_` is followed by at least one
digit, return the maximal digit run (the capture group); `none` when the
regex does not match anywhere. -/
def floodWaitDigits : List Char → Option (List Char)
  | [] => none
  | c :: cs =>
    if listStartsWith floodWaitLiteral (c :: cs) then
      match takeDigits ((c :: cs).drop floodWaitLiteral.length) with
      | [] => floodWaitDigits cs
      | d :: ds => some (d :: ds)
    else floodWaitDigits cs

/-- Value of a decimal digit string, as `parseInt(s, 10)` computes it for an
all-digit capture group. -/
def digitsToNat (ds : List Char) : Nat :=
  ds.foldl (fun n c => n * 10 + (c.toNat - 48)) 0

/-- The wait seconds the classifier attaches to a `FLOOD_WAIT` error:
`match ? parseInt(match[1], 10) : 30` in the source. -/
def floodWaitParsed (s : String) : Nat :=
  match floodWaitDigits s.toList with
  | some ds => digitsToNat ds
  | none => 30

/-- The closed error taxonomy of the classifier (`TelegramErrorType` in the
source). -/
inductive TelegramErrorType where
  | FLOOD_WAIT
  | PEER_ID_INVALID
  | USER_RESTRICTED
  | USER_IS_BOT
  | SESSION_EXPIRED
  | CHAT_WRITE_FORBIDDEN
  | UNKNOWN
deriving DecidableEq, Repr

/-- Result of classification (`ErrorClassification` in the source).
`floodWaitSeconds` is set exactly when the type is `FLOOD_WAIT`. -/
structure ErrorClassification where
  type : TelegramErrorType
  isPermanent : Bool
  isFloodWait : Bool
  floodWaitSeconds : Option Nat := none
deriving DecidableEq, Repr

/-- Shallow embedding of `classifyTelegramError` (audience.handler.ts lines
91–126), as a function of the resolved error text
(`err.errorMessage || err.message || ""`). The cascade of `includes` checks
is translated in source order. -/
def classifyTelegramError (errorMessage : String) : ErrorClassification :=
  if strIncludes errorMessage "FLOOD_WAIT" then
    { type := TelegramErrorType.FLOOD_WAIT
      isPermanent := false
      isFloodWait := true
      floodWaitSeconds := some (floodWaitParsed errorMessage) }
  else if strIncludes errorMessage "PEER_ID_INVALID" then
    { type := TelegramErrorType.PEER_ID_INVALID, isPermanent := true, isFloodWait := false }
  else if strIncludes errorMessage "USER_RESTRICTED" then
    { type := TelegramErrorType.USER_RESTRICTED, isPermanent := true, isFloodWait := false }
  else if strIncludes errorMessage "USER_IS_BOT" then
    { type := TelegramErrorType.USER_IS_BOT, isPermanent := true, isFloodWait := false }
  else if strIncludes errorMessage "SESSION_EXPIRED" || strIncludes errorMessage "AUTH_KEY_UNREGISTERED" then
    { type := TelegramErrorType.SESSION_EXPIRED, isPermanent := false, isFloodWait := false }
  else if strIncludes errorMessage "CHAT_WRITE_FORBIDDEN" then
    { type := TelegramErrorType.CHAT_WRITE_FORBIDDEN, isPermanent := true, isFloodWait := false }
  else
    { type := TelegramErrorType.UNKNOWN, isPermanent := false, isFloodWait := false }

/-- One progress snapshot as `updateProgress` writes it through
`saveBroadcastProgress` (status, rounded percentage, counters, optional
error string). -/
structure Snapshot where
  status : String
  progress : Nat
  processed : Nat
  total : Nat
  sent : Nat
  failed : Nat
  skipped : Nat
  error : Option String
deriving DecidableEq, Repr

/-- Campaign metadata passed to `updateCampaignStatus` by the broadcast
handler: the high-failure-rate patch, the completion patch, or the fatal
error patch of the outer catch. -/
inductive CampaignMeta where
  | failureMeta (sent failed skipped failureRatePct : Nat) (error : String)
  | completedMeta (sent failed skipped totalRecipients : Nat)
  | errorMeta (error : String)
deriving DecidableEq, Repr

/-- One call to `updateCampaignStatus` (or `startCampaign`, which writes the
`in_progress` status with no metadata patch). -/
structure StatusUpdate where
  status : String
  metadata : Option CampaignMeta
deriving DecidableEq, Repr

/-- One row appended to `broadcast_logs` by `logBroadcastOutcome`. -/
structure Outcome where
  recipient : String
  status : String
  errorMessage : Option String
deriving DecidableEq, Repr

/-- The result object `handleBroadcastJob` returns on graceful completion. -/
structure HandlerResult where
  sent : Nat
  failed : Nat
  skipped : Nat
  success : Bool
deriving DecidableEq, Repr

/-- Oracle for the effectful calls made while processing one recipient:
`sendError` is the underlying message-send failure (`none` = the send
succeeded), and each `log…Error` says whether the corresponding
`logBroadcastOutcome` database write throws (with which message). -/
structure RecipientOracle where
  sendError : Option String := none
  logSentError : Option String := none
  logSkippedError : Option String := none
  logFailedError : Option String := none
deriving DecidableEq, Repr, Inhabited

/-- Mutable state of one delivery attempt: the counters of the loop, the
anti-spam pacing counters, and the event traces (snapshots written, outcomes
logged, flood-wait sleeps performed, in order). -/
structure LoopState where
  processed : Nat
  sent : Nat
  failed : Nat
  skipped : Nat
  shouldRetry : Bool
  succCount : Nat
  failCount : Nat
  snapshots : List Snapshot
  outcomes : List Outcome
  floodSleeps : List Nat
deriving DecidableEq, Repr

/-- The integer percentage `total > 0 ? Math.round(processed / total * 100) : 0`
computed in `updateProgress`: `(200 * p + t) / (2 * t)` is
`⌊100 p / t + 1 / 2⌋` over the naturals. -/
def progressPercent (p t : Nat) : Nat :=
  if 0 < t then (200 * p + t) / (2 * t) else 0

/-- Human-readable name the handler interpolates into outcome rows
(`classification.type` rendered as a string). -/
def typeName : TelegramErrorType → String
  | TelegramErrorType.FLOOD_WAIT => "FLOOD_WAIT"
  | TelegramErrorType.PEER_ID_INVALID => "PEER_ID_INVALID"
  | TelegramErrorType.USER_RESTRICTED => "USER_RESTRICTED"
  | TelegramErrorType.USER_IS_BOT => "USER_IS_BOT"
  | TelegramErrorType.SESSION_EXPIRED => "SESSION_EXPIRED"
  | TelegramErrorType.CHAT_WRITE_FORBIDDEN => "CHAT_WRITE_FORBIDDEN"
  | TelegramErrorType.UNKNOWN => "UNKNOWN"

/-- Wrapper `sendMessageToRecipient` puts around any error of the underlying
client call before re-throwing it (audience.handler.ts lines 176–179). -/
def wrapSendError (recipient msg : String) : String :=
  "Failed to send message to " ++ recipient ++ ": " ++ msg

/-- Body of the per-recipient `catch` block (audience.handler.ts lines
245–287), applied to the caught error text `m`. Returns the new state and
`some e` when a `logBroadcastOutcome` call inside the catch block itself
throws `e` (such an error escapes the loop). Source order is kept: the
`skipped`/`failed` counter is incremented before the outcome write, and
`recordFailure` and the flood-wait sleep happen only after a successful
`failed`-outcome write. -/
def handleCaught (r : String) (o : RecipientOracle) (st : LoopState) (m : String) :
    LoopState × Option String :=
  let c := classifyTelegramError m
  if c.isPermanent then
    let st1 := { st with skipped := st.skipped + 1 }
    match o.logSkippedError with
    | some e => (st1, some e)
    | none =>
      ({ st1 with outcomes := st1.outcomes ++
          [{ recipient := r, status := "skipped",
             errorMessage := some ("Permanent error: " ++ typeName c.type) }] }, none)
  else
    let st1 := { st with failed := st.failed + 1, shouldRetry := true }
    match o.logFailedError with
    | some e => (st1, some e)
    | none =>
      let st2 := { st1 with
        outcomes := st1.outcomes ++
          [{ recipient := r, status := "failed",
             errorMessage := some ("Retryable error: " ++ typeName c.type) }],
        failCount := st1.failCount + 1 }
      if c.isFloodWait && c.floodWaitSeconds.getD 0 != 0 then
        ({ st2 with floodSleeps := st2.floodSleeps ++ [c.floodWaitSeconds.getD 0 * 1000] },
          none)
      else (st2, none)

/-- One iteration of the sending loop for recipient `r` (audience.handler.ts
lines 225–287, excluding the snapshot write): `processed` is incremented
first; on a successful send, `recordSuccess` and `sent += 1` precede the
`sent`-outcome write, and a throwing `sent`-outcome write is caught by the
same per-recipient catch and classified like a send error. The pacing delay
and its await are not observable in the traces and are omitted. -/
def stepRecipient (r : String) (o : RecipientOracle) (st : LoopState) :
    LoopState × Option String :=
  let st1 := { st with processed := st.processed + 1 }
  match o.sendError with
  | none =>
    let st2 := { st1 with succCount := st1.succCount + 1, sent := st1.sent + 1 }
    match o.logSentError with
    | none =>
      ({ st2 with outcomes := st2.outcomes ++
          [{ recipient := r, status := "sent", errorMessage := none }] }, none)
    | some m => handleCaught r o st2 m
  | some m => handleCaught r o st1 (wrapSendError r m)

/-- Snapshot written by `updateProgress(job, campaignId, "sending", processed,
total, sent, failed, skipped)` after each recipient. -/
def sendingSnap (st : LoopState) (total : Nat) : Snapshot :=
  { status := "sending", progress := progressPercent st.processed total,
    processed := st.processed, total := total, sent := st.sent,
    failed := st.failed, skipped := st.skipped, error := none }

/-- The sending loop (audience.handler.ts lines 225–299): recipients are
processed strictly in order; after each recipient a `sending` snapshot is
written; an error escaping the per-recipient handling stops the loop and is
returned alongside the state reached. `idx` indexes the oracle. -/
def runLoop (oracle : Nat → RecipientOracle) :
    List String → Nat → Nat → LoopState → LoopState × Option String
  | [], _, _, st => (st, none)
  | r :: rs, idx, total, st =>
    match stepRecipient r (oracle idx) st with
    | (st1, some e) => (st1, some e)
    | (st1, none) =>
      runLoop oracle rs (idx + 1) total
        { st1 with snapshots := st1.snapshots ++ [sendingSnap st1 total] }

/-- Snapshot written by `updateProgress(..., "initializing", 0, total, 0, 0, 0)`
at the start of the attempt. -/
def initSnap (total : Nat) : Snapshot :=
  { status := "initializing", progress := progressPercent 0 total, processed := 0,
    total := total, sent := 0, failed := 0, skipped := 0, error := none }

/-- Loop state at entry of the sending loop: zero counters, and the
`initializing` and first `sending` snapshots already written. -/
def initialLoopState (total : Nat) : LoopState :=
  { processed := 0, sent := 0, failed := 0, skipped := 0, shouldRetry := false,
    succCount := 0, failCount := 0,
    snapshots := [initSnap total,
      { status := "sending", progress := progressPercent 0 total, processed := 0,
        total := total, sent := 0, failed := 0, skipped := 0, error := none }],
    outcomes := [], floodSleeps := [] }

/-- Decidable equality for `Except`, so concrete run results can be checked
by `decide`. -/
instance {e a : Type} [DecidableEq e] [DecidableEq a] : DecidableEq (Except e a) := fun x y =>
  match x, y with
  | Except.ok u, Except.ok v =>
    if h : u = v then isTrue (h ▸ rfl) else isFalse fun hc => h (Except.ok.inj hc)
  | Except.error u, Except.error v =>
    if h : u = v then isTrue (h ▸ rfl) else isFalse fun hc => h (Except.error.inj hc)
  | Except.ok _, Except.error _ => isFalse fun hc => Except.noConfusion hc
  | Except.error _, Except.ok _ => isFalse fun hc => Except.noConfusion hc

/-- Input of one invocation of `handleBroadcastJob`: the recipient list of the
job data, whether `restoreSession` finds a session, whether `client.connect()`
throws (and with what message), and the per-recipient effect oracle. -/
structure RunInput where
  recipients : List String
  sessionOk : Bool
  connectError : Option String := none
  oracle : Nat → RecipientOracle

/-- Observable trace of one invocation of `handleBroadcastJob`: every campaign
status write, every progress snapshot in order, the outcome log, the
flood-wait sleeps (milliseconds), the anti-spam failure-record count, whether
the Telegram client was connected and disconnected, whether
`clearBroadcastProgress` ran, and the returned value or thrown error. -/
structure RunTrace where
  statusUpdates : List StatusUpdate
  snapshots : List Snapshot
  outcomes : List Outcome
  floodSleeps : List Nat
  failCalls : Nat
  connected : Bool
  disconnected : Bool
  cleared : Bool
  result : Except String HandlerResult
deriving Repr

/-- Status write of `startCampaign` (sets `in_progress`, touches no
metadata). -/
def startUpdate : StatusUpdate := { status := "in_progress", metadata := none }

/-- The final snapshot the outer catch writes (audience.handler.ts lines
408–418): `updateProgress(job, campaignId, "failed", recipients.length,
recipients.length, 0, 0, recipients.length, err.message)` — note the
positional arguments put the recipient count into `skipped`, not `failed`. -/
def fatalSnap (total : Nat) (msg : String) : Snapshot :=
  { status := "failed", progress := progressPercent total total, processed := total,
    total := total, sent := 0, failed := 0, skipped := total, error := some msg }

/-- The outer catch block (audience.handler.ts lines 393–421): mark the
campaign `failed` with the error message as metadata, write the fatal
snapshot, re-throw. `snaps`/`outs`/`sleeps`/`fc` are the traces accumulated
before the throw; `upds` the status updates already performed. -/
def finishFatalTrace (total : Nat) (upds : List StatusUpdate) (snaps : List Snapshot)
    (outs : List Outcome) (sleeps : List Nat) (fc : Nat)
    (connected disconnected : Bool) (msg : String) : RunTrace :=
  { statusUpdates := upds ++ [{ status := "failed", metadata := some (CampaignMeta.errorMeta msg) }],
    snapshots := snaps ++ [fatalSnap total msg],
    outcomes := outs, floodSleeps := sleeps, failCalls := fc,
    connected := connected, disconnected := disconnected, cleared := false,
    result := Except.error msg }

/-- Error message of the re-raise in the high-failure-rate branch. -/
def retryErrorMsg : String := "Broadcast failed with retryable errors; will retry"

/-- Failure rate `sent + failed > 0 ? failed / (sent + failed) : 0` computed
after the loop, over the rationals. -/
def failureRateQ (st : LoopState) : ℚ :=
  if 0 < st.sent + st.failed then (st.failed : ℚ) / ((st.sent : ℚ) + (st.failed : ℚ)) else 0

/-- Snapshot written in the high-failure-rate branch:
`updateProgress(..., "failed", total, total, sent, failed, skipped,
"Failed: ...% failure rate")`. The numeric rendering of the rate inside the
error string is approximated with the rational `toString`. -/
def failedRateSnap (total : Nat) (st : LoopState) : Snapshot :=
  { status := "failed", progress := progressPercent total total, processed := total,
    total := total, sent := st.sent, failed := st.failed, skipped := st.skipped,
    error := some ("Failed: " ++ toString (failureRateQ st * 100) ++ "% failure rate") }

/-- Terminal decision after the loop has processed every recipient
(audience.handler.ts lines 301–392), given the loop's final state. The client
has just been disconnected. If the failure rate exceeds 0.5 the campaign is
marked `failed`, the failure snapshot is written, and when `shouldRetry` was
set an error is thrown — which the handler's own outer catch then intercepts
(writing a second `failed` status and the fatal snapshot) before re-throwing.
Otherwise the campaign is marked `completed`, a final snapshot is written and
the progress key is cleared. -/
def afterLoop (total : Nat) (st : LoopState) : RunTrace :=
  let fr := failureRateQ st
  if 1 / 2 < fr then
    let upd1 : StatusUpdate :=
      { status := "failed",
        metadata := some (CampaignMeta.failureMeta st.sent st.failed st.skipped
          (round (fr * 100)).toNat "High failure rate threshold exceeded") }
    if st.shouldRetry then
      finishFatalTrace total [startUpdate, upd1] (st.snapshots ++ [failedRateSnap total st])
        st.outcomes st.floodSleeps st.failCount true true retryErrorMsg
    else
      { statusUpdates := [startUpdate, upd1],
        snapshots := st.snapshots ++ [failedRateSnap total st],
        outcomes := st.outcomes, floodSleeps := st.floodSleeps, failCalls := st.failCount,
        connected := true, disconnected := true, cleared := false,
        result := Except.ok
          { sent := st.sent, failed := st.failed, skipped := st.skipped, success := false } }
  else
    { statusUpdates := [startUpdate,
        { status := "completed",
          metadata := some (CampaignMeta.completedMeta st.sent st.failed st.skipped total) }],
      snapshots := st.snapshots ++
        [{ status := "completed", progress := progressPercent total total, processed := total,
           total := total, sent := st.sent, failed := st.failed, skipped := st.skipped,
           error := none }],
      outcomes := st.outcomes, floodSleeps := st.floodSleeps, failCalls := st.failCount,
      connected := true, disconnected := true, cleared := true,
      result := Except.ok
        { sent := st.sent, failed := st.failed, skipped := st.skipped, success := true } }

/-- The sending loop of one invocation, run on the invocation's input: final
loop state and the error, if one escaped the per-recipient handling. -/
def loopFinal (inp : RunInput) : LoopState × Option String :=
  runLoop inp.oracle inp.recipients 0 inp.recipients.length
    (initialLoopState inp.recipients.length)

/-- Shallow embedding of `handleBroadcastJob` (audience.handler.ts lines
182–422) as a trace-producing interpreter. A missing session throws before
the client is created; a connect failure throws before the sending loop; an
error escaping the per-recipient handling aborts the loop with the client
still connected. All three land in the outer catch. `startCampaign`, the
campaign status writes, `job.progress` and the snapshot writes are modelled
as succeeding (`saveBroadcastProgress` itself never throws — see the
progress-reporter theorems — and the others' failure modes are not the
subject of the claims). -/
def handleBroadcastJobModel (inp : RunInput) : RunTrace :=
  let total := inp.recipients.length
  if inp.sessionOk = false then
    finishFatalTrace total [startUpdate] [initSnap total] [] [] 0 false false
      "No Telegram session found for user"
  else
    match inp.connectError with
    | some m => finishFatalTrace total [startUpdate] [initSnap total] [] [] 0 false false m
    | none =>
      match (loopFinal inp).2 with
      | some e =>
        finishFatalTrace total [startUpdate] (loopFinal inp).1.snapshots
          (loopFinal inp).1.outcomes (loopFinal inp).1.floodSleeps
          (loopFinal inp).1.failCount true false e
      | none => afterLoop total (loopFinal inp).1

/-- Base delay of `AntiSpamService.getBaseDelay` (antiSpam.service.ts lines
20–29): 1000 ms for age 0, 750 ms for ages 1–6, 500 ms from one week on. -/
noncomputable def getBaseDelay (accountAge : Nat) : ℝ :=
  if accountAge = 0 then 500 * 2
  else if accountAge < 7 then 500 * 1.5
  else 500

/-- Failure rate of the pacing state, `failures / (successes + failures)`
(0 with no history), over the reals. -/
noncomputable def pacingFailureRate (succ fail : Nat) : ℝ :=
  if 0 < succ + fail then (fail : ℝ) / ((succ : ℝ) + (fail : ℝ)) else 0

/-- Core of `AntiSpamService.calculateDelay` (antiSpam.service.ts lines
36–58) as a function of the base delay, the failure rate `r`, the flood-wait
flag and the random draw `rand = Math.random() ∈ [0, 1)`:
`base * 1.5 ^ max 0 r`, tripled on flood wait, jittered by
`(rand - 0.5) * 2 * (delay * 0.2)`, rounded, and clamped to `[0, 5000]`. -/
noncomputable def nextDelay (base r : ℝ) (isFloodWait : Bool) (rand : ℝ) : ℤ :=
  let backoffFactor : ℝ := (1.5 : ℝ) ^ (max 0 r)
  let d1 := base * backoffFactor
  let d2 := if isFloodWait then d1 * 3 else d1
  let jitterAmount := d2 * 0.2
  let d3 := d2 + (rand - 0.5) * 2 * jitterAmount
  min (max (round d3) 0) 5000

/-- `AntiSpamService.calculateDelay` for a service whose config carries
`accountAge` and whose counters are `succ`/`fail`. -/
noncomputable def calculateDelayModel (accountAge succ fail : Nat) (isFloodWait : Bool)
    (rand : ℝ) : ℤ :=
  nextDelay (getBaseDelay accountAge) (pacingFailureRate succ fail) isFloodWait rand

/-- Lookup in a JavaScript-object-as-association-list: the first binding of
the key wins. -/
def lookupMeta {α : Type} (m : List (String × α)) (k : String) : Option α :=
  match m with
  | [] => none
  | (k1, v) :: rest => if k1 = k then some v else lookupMeta rest k

/-- Metadata handling of `updateCampaignStatus` (broadcast.service.ts lines
182–211): `metadataValue` starts as the empty object; only when a metadata
patch is supplied is the stored row read and spread-merged
(`{ ...existing, ...metadata }`, patch bindings first so they win); the
campaign row's metadata column is then overwritten with `metadataValue`
unconditionally. `stored` is the row's current metadata. -/
def updateCampaignStatusMeta {α : Type} (stored : List (String × α))
    (patch : Option (List (String × α))) : List (String × α) :=
  match patch with
  | some p => p ++ stored
  | none => []

/-- A progress snapshot as serialized into Redis by `saveBroadcastProgress`:
the caller's snapshot fields plus the campaign id and the `updated_at`
timestamp. -/
structure StoredSnapshot where
  campaignId : String
  snap : Snapshot
  updated_at : String
deriving DecidableEq, Repr

/-- Payload construction of `saveBroadcastProgress` (progress.service.ts
lines 28–32): the snapshot is completed with the campaign id and, when the
caller gave no `updated_at`, the current time. -/
def buildPayload (campaignId : String) (s : Snapshot) (updAt : Option String)
    (now : String) : StoredSnapshot :=
  { campaignId := campaignId, snap := s, updated_at := updAt.getD now }

/-- Shallow embedding of `saveBroadcastProgress` (progress.service.ts lines
24–41). `store` is the outcome of the Redis `setEx` call; a store error is
caught and logged, and the built payload is returned either way. The result
type `Except String StoredSnapshot` records whether the function itself can
throw. -/
def saveBroadcastProgressModel (campaignId : String) (s : Snapshot) (updAt : Option String)
    (now : String) (store : Except String Unit) : Except String StoredSnapshot :=
  let payload := buildPayload campaignId s updAt now
  match store with
  | Except.ok _ => Except.ok payload
  | Except.error _ => Except.ok payload

/-- Shallow embedding of `readBroadcastProgress` (progress.service.ts lines
43–55). `fetch` is the Redis `get` (`none` = key absent), `parse` the
`JSON.parse` deserialization of the raw string; an error of either is caught
and turned into `null`. -/
def readBroadcastProgressModel (fetch : Except String (Option String))
    (parse : String → Except String StoredSnapshot) : Except String (Option StoredSnapshot) :=
  match fetch with
  | Except.error _ => Except.ok none
  | Except.ok none => Except.ok none
  | Except.ok (some raw) =>
    match parse raw with
    | Except.error _ => Except.ok none
    | Except.ok snap => Except.ok (some snap)

/-- Shallow embedding of `clearBroadcastProgress` (progress.service.ts lines
57–63). `del` is the Redis `del` call; its error is caught and logged. -/
def clearBroadcastProgressModel (del : Except String Unit) : Except String Unit :=
  match del with
  | Except.ok _ => Except.ok ()
  | Except.error _ => Except.ok ()

/-- High-failure run used by the C2 witness: both sends fail with an
unclassified transient error. -/
def highFailureInput : RunInput :=
  { recipients := ["a", "b"], sessionOk := true,
    oracle := fun _ => { sendError := some "socket hangup" } }

/-- Boundary run used by the C2 witness: one failed send, one successful
send, failure rate exactly one half. -/
def boundaryInput : RunInput :=
  { recipients := ["a", "b"], sessionOk := true,
    oracle := fun i => if i == 0 then { sendError := some "socket hangup" } else {} }

/-- Claim C5 counterexample: the error text `AUTH_KEY_UNREGISTERED` contains
none of the six patterns the claim lists, so by the claim it should classify
as `UNKNOWN`; the code classifies it as `SESSION_EXPIRED` (the source checks
`SESSION_EXPIRED || AUTH_KEY_UNREGISTERED`). -/
theorem classifyTelegramError_authKey_counterexample :
    strIncludes "AUTH_KEY_UNREGISTERED" "FLOOD_WAIT" = false ∧
    strIncludes "AUTH_KEY_UNREGISTERED" "PEER_ID_INVALID" = false ∧
    strIncludes "AUTH_KEY_UNREGISTERED" "USER_RESTRICTED" = false ∧
    strIncludes "AUTH_KEY_UNREGISTERED" "USER_IS_BOT" = false ∧
    strIncludes "AUTH_KEY_UNREGISTERED" "SESSION_EXPIRED" = false ∧
    strIncludes "AUTH_KEY_UNREGISTERED" "CHAT_WRITE_FORBIDDEN" = false ∧
    classifyTelegramError "AUTH_KEY_UNREGISTERED" ≠
      { type := TelegramErrorType.UNKNOWN, isPermanent := false, isFloodWait := false,
        floodWaitSeconds := none } ∧
    classifyTelegramError "AUTH_KEY_UNREGISTERED" =
      { type := TelegramErrorType.SESSION_EXPIRED, isPermanent := false, isFloodWait := false,
        floodWaitSeconds := none } := by
  decide

/-- Claim C5 (amended): `classifyTelegramError` is a pure function of the
error text realizing the closed taxonomy, with the checks applied in source
order and with `AUTH_KEY_UNREGISTERED` classified as `SESSION_EXPIRED`
alongside the `SESSION_EXPIRED` pattern; a `FLOOD_WAIT` text carries the wait
seconds parsed from the text (default 30); every other text is `UNKNOWN`,
non-permanent. -/
theorem classifyTelegramError_characterization (s : String) :
    (∀ t : String, t = s → classifyTelegramError t = classifyTelegramError s) ∧
    (strIncludes s "FLOOD_WAIT" = true →
      classifyTelegramError s =
        { type := TelegramErrorType.FLOOD_WAIT, isPermanent := false, isFloodWait := true,
          floodWaitSeconds := some (floodWaitParsed s) }) ∧
    (strIncludes s "FLOOD_WAIT" = false → strIncludes s "PEER_ID_INVALID" = true →
      classifyTelegramError s =
        { type := TelegramErrorType.PEER_ID_INVALID, isPermanent := true, isFloodWait := false,
          floodWaitSeconds := none }) ∧
    (strIncludes s "FLOOD_WAIT" = false → strIncludes s "PEER_ID_INVALID" = false →
      strIncludes s "USER_RESTRICTED" = true →
      classifyTelegramError s =
        { type := TelegramErrorType.USER_RESTRICTED, isPermanent := true, isFloodWait := false,
          floodWaitSeconds := none }) ∧
    (strIncludes s "FLOOD_WAIT" = false → strIncludes s "PEER_ID_INVALID" = false →
      strIncludes s "USER_RESTRICTED" = false → strIncludes s "USER_IS_BOT" = true →
      classifyTelegramError s =
        { type := TelegramErrorType.USER_IS_BOT, isPermanent := true, isFloodWait := false,
          floodWaitSeconds := none }) ∧
    (strIncludes s "FLOOD_WAIT" = false → strIncludes s "PEER_ID_INVALID" = false →
      strIncludes s "USER_RESTRICTED" = false → strIncludes s "USER_IS_BOT" = false →
      (strIncludes s "SESSION_EXPIRED" = true ∨ strIncludes s "AUTH_KEY_UNREGISTERED" = true) →
      classifyTelegramError s =
        { type := TelegramErrorType.SESSION_EXPIRED, isPermanent := false, isFloodWait := false,
          floodWaitSeconds := none }) ∧
    (strIncludes s "FLOOD_WAIT" = false → strIncludes s "PEER_ID_INVALID" = false →
      strIncludes s "USER_RESTRICTED" = false → strIncludes s "USER_IS_BOT" = false →
      strIncludes s "SESSION_EXPIRED" = false → strIncludes s "AUTH_KEY_UNREGISTERED" = false →
      strIncludes s "CHAT_WRITE_FORBIDDEN" = true →
      classifyTelegramError s =
        { type := TelegramErrorType.CHAT_WRITE_FORBIDDEN, isPermanent := true,
          isFloodWait := false, floodWaitSeconds := none }) ∧
    (strIncludes s "FLOOD_WAIT" = false → strIncludes s "PEER_ID_INVALID" = false →
      strIncludes s "USER_RESTRICTED" = false → strIncludes s "USER_IS_BOT" = false →
      strIncludes s "SESSION_EXPIRED" = false → strIncludes s "AUTH_KEY_UNREGISTERED" = false →
      strIncludes s "CHAT_WRITE_FORBIDDEN" = false →
      classifyTelegramError s =
        { type := TelegramErrorType.UNKNOWN, isPermanent := false, isFloodWait := false,
          floodWaitSeconds := none }) := by
  refine ⟨fun t ht => by rw [ht], ?_, ?_, ?_, ?_, ?_, ?_, ?_⟩
  · intro h1
    simp [classifyTelegramError, h1]
  · intro h1 h2
    simp [classifyTelegramError, h1, h2]
  · intro h1 h2 h3
    simp [classifyTelegramError, h1, h2, h3]
  · intro h1 h2 h3 h4
    simp [classifyTelegramError, h1, h2, h3, h4]
  · intro h1 h2 h3 h4 h5
    rcases h5 with h5 | h5 <;> simp [classifyTelegramError, h1, h2, h3, h4, h5]
  · intro h1 h2 h3 h4 h5 h6 h7
    simp [classifyTelegramError, h1, h2, h3, h4, h5, h6, h7]
  · intro h1 h2 h3 h4 h5 h6 h7
    simp [classifyTelegramError, h1, h2, h3, h4, h5, h6, h7]

/-- Witness for the amended C5 theorem at the concrete text
`FLOOD_WAIT_7`. -/
theorem classifyTelegramError_characterization_witness :
    classifyTelegramError "FLOOD_WAIT_7" =
      { type := TelegramErrorType.FLOOD_WAIT, isPermanent := false, isFloodWait := true,
        floodWaitSeconds := some 7 } := by
  have h := (classifyTelegramError_characterization "FLOOD_WAIT_7").2.1 (by decide)
  rw [h]
  decide

/-- Claim C10: an error text containing `FLOOD_WAIT` but matching no
`FLOOD_WAIT_<digits>` pattern classifies with the default
`floodWaitSeconds = 30`, and the delivery loop's catch block then sleeps
30000 ms before the next recipient (given the `failed`-outcome write
succeeds, so the sleep is reached). -/
theorem floodWait_default_thirty (m : String)
    (h1 : strIncludes m "FLOOD_WAIT" = true)
    (h2 : floodWaitDigits m.toList = none) :
    classifyTelegramError m =
      { type := TelegramErrorType.FLOOD_WAIT, isPermanent := false, isFloodWait := true,
        floodWaitSeconds := some 30 } ∧
    ∀ (r : String) (o : RecipientOracle) (st : LoopState), o.logFailedError = none →
      (handleCaught r o st m).1.floodSleeps = st.floodSleeps ++ [30000] := by
  have h2' : floodWaitDigits m.data = none := h2
  have hc : classifyTelegramError m =
      { type := TelegramErrorType.FLOOD_WAIT, isPermanent := false, isFloodWait := true,
        floodWaitSeconds := some 30 } := by
    simp [classifyTelegramError, h1, floodWaitParsed, h2']
  refine ⟨hc, ?_⟩
  intro r o st hlog
  simp [handleCaught, hc, hlog]

/-- Witness for C10 at the concrete text `FLOOD_WAIT retry later`. -/
theorem floodWait_default_thirty_witness :
    classifyTelegramError "FLOOD_WAIT retry later" =
      { type := TelegramErrorType.FLOOD_WAIT, isPermanent := false, isFloodWait := true,
        floodWaitSeconds := some 30 } ∧
    (handleCaught "u" { sendError := some "FLOOD_WAIT retry later" } (initialLoopState 1)
        "FLOOD_WAIT retry later").1.floodSleeps = [] ++ [30000] := by
  have h := floodWait_default_thirty "FLOOD_WAIT retry later" (by decide) (by decide)
  exact ⟨h.1, h.2 "u" { sendError := some "FLOOD_WAIT retry later" } (initialLoopState 1) rfl⟩

/-- Claim C9: the progress reporter never propagates store failures — a store
error or a deserialization error makes `readBroadcastProgress` return `null`,
`saveBroadcastProgress` returns the built payload whether or not the store
write succeeded, and `clearBroadcastProgress` returns normally whatever the
deletion did. -/
theorem progressReporter_never_throws :
    (∀ (cid : String) (s : Snapshot) (updAt : Option String) (now : String)
        (store : Except String Unit),
      saveBroadcastProgressModel cid s updAt now store =
        Except.ok (buildPayload cid s updAt now)) ∧
    (∀ (e : String) (parse : String → Except String StoredSnapshot),
      readBroadcastProgressModel (Except.error e) parse = Except.ok none) ∧
    (∀ (raw e : String) (parse : String → Except String StoredSnapshot),
      parse raw = Except.error e →
      readBroadcastProgressModel (Except.ok (some raw)) parse = Except.ok none) ∧
    (∀ del : Except String Unit, clearBroadcastProgressModel del = Except.ok ()) := by
  refine ⟨?_, ?_, ?_, ?_⟩
  · intro cid s updAt now store
    cases store <;> rfl
  · intro e parse
    rfl
  · intro raw e parse hp
    simp [readBroadcastProgressModel, hp]
  · intro del
    cases del <;> rfl

/-- Witness for C9: a parser that always fails, a failing store, and a
failing delete, at concrete inputs. -/
theorem progressReporter_never_throws_witness :
    saveBroadcastProgressModel "c" (initSnap 1) none "t0" (Except.error "redis down") =
      Except.ok (buildPayload "c" (initSnap 1) none "t0") ∧
    readBroadcastProgressModel (Except.ok (some "garbage"))
      (fun _ => Except.error "bad json") = Except.ok none ∧
    clearBroadcastProgressModel (Except.error "redis down") = Except.ok () := by
  refine ⟨progressReporter_never_throws.1 "c" (initSnap 1) none "t0" (Except.error "redis down"),
    progressReporter_never_throws.2.2.1 "garbage" "bad json" (fun _ => Except.error "bad json")
      rfl,
    progressReporter_never_throws.2.2.2 (Except.error "redis down")⟩

/-- Lookup over a concatenation of objects: the earlier (patch) bindings win,
the later (stored) ones are the fallback — spread semantics. -/
theorem lookupMeta_append {α : Type} (a b : List (String × α)) (k : String) :
    lookupMeta (a ++ b) k =
      match lookupMeta a k with
      | some v => some v
      | none => lookupMeta b k := by
  induction a with
  | nil => simp [lookupMeta]
  | cons hd tl ih =>
    obtain ⟨k1, v⟩ := hd
    by_cases hk : k1 = k <;> simp [lookupMeta, hk, ih]

/-- Claim C8 counterexample: a call of `updateCampaignStatus` that supplies no
metadata patch does not leave the stored metadata unchanged — the stored
object `{a: 1}` is replaced by the empty object (the source initializes
`metadataValue = {}` and writes it unconditionally). -/
theorem updateCampaignStatusMeta_counterexample :
    updateCampaignStatusMeta [("a", (1 : Nat))] none = [] ∧
    lookupMeta (updateCampaignStatusMeta [("a", (1 : Nat))] none) "a" ≠
      lookupMeta [("a", (1 : Nat))] "a" := by
  refine ⟨rfl, ?_⟩
  decide

/-- Claim C8 (amended): when a metadata patch is supplied,
`updateCampaignStatus` merge-patches — every key absent from the patch keeps
its stored value; when no patch is supplied, the stored metadata is replaced
by the empty object (not left unchanged). -/
theorem updateCampaignStatusMeta_spec {α : Type} (stored patch : List (String × α))
    (k : String) (h : lookupMeta patch k = none) :
    lookupMeta (updateCampaignStatusMeta stored (some patch)) k = lookupMeta stored k ∧
    updateCampaignStatusMeta stored (none : Option (List (String × α))) = [] := by
  constructor
  · show lookupMeta (patch ++ stored) k = lookupMeta stored k
    rw [lookupMeta_append, h]
  · rfl

/-- Witness for the amended C8 theorem: patch `{b: 2}` over stored `{a: 1}`
keeps `a`. -/
theorem updateCampaignStatusMeta_spec_witness :
    lookupMeta (updateCampaignStatusMeta [("a", (1 : Nat))] (some [("b", 2)])) "a" =
      lookupMeta [("a", (1 : Nat))] "a" ∧
    updateCampaignStatusMeta [("a", (1 : Nat))] none = [] :=
  updateCampaignStatusMeta_spec [("a", 1)] [("b", 2)] "a" (by decide)


/-- Claim C3: for a recipient whose send fails, a permanent classification
routes to `skipped` — the `skipped` counter is incremented, the `failed` and
`sent` counters and the pacing failure counter are untouched (so the
recipient cannot contribute to the end-of-run failure rate), no `failed`
outcome is appended, and (when the outcome write succeeds) a `skipped`
outcome is appended; a non-permanent classification (with a successful
outcome write) increments `failed` and the pacing failure counter, appends a
`failed` outcome, and sleeps `floodWaitSeconds * 1000` ms exactly when the
classification is a flood wait (`0` extra milliseconds otherwise, measured on
the total slept time). -/
theorem permanentErrorRouting (r m : String) (o : RecipientOracle) (st : LoopState)
    (hsend : o.sendError = some m) :
    ((classifyTelegramError (wrapSendError r m)).isPermanent = true →
      (stepRecipient r o st).1.skipped = st.skipped + 1 ∧
      (stepRecipient r o st).1.failed = st.failed ∧
      (stepRecipient r o st).1.sent = st.sent ∧
      (stepRecipient r o st).1.failCount = st.failCount ∧
      (∀ out ∈ (stepRecipient r o st).1.outcomes, out ∈ st.outcomes ∨ out.status = "skipped") ∧
      (o.logSkippedError = none →
        (stepRecipient r o st).1.outcomes = st.outcomes ++
          [{ recipient := r, status := "skipped",
             errorMessage := some ("Permanent error: " ++
               typeName (classifyTelegramError (wrapSendError r m)).type) }])) ∧
    ((classifyTelegramError (wrapSendError r m)).isPermanent = false →
      o.logFailedError = none →
      (stepRecipient r o st).1.failed = st.failed + 1 ∧
      (stepRecipient r o st).1.skipped = st.skipped ∧
      (stepRecipient r o st).1.sent = st.sent ∧
      (stepRecipient r o st).1.failCount = st.failCount + 1 ∧
      (stepRecipient r o st).1.outcomes = st.outcomes ++
        [{ recipient := r, status := "failed",
           errorMessage := some ("Retryable error: " ++
             typeName (classifyTelegramError (wrapSendError r m)).type) }] ∧
      (stepRecipient r o st).1.floodSleeps.sum = st.floodSleeps.sum +
        (if (classifyTelegramError (wrapSendError r m)).isFloodWait = true then
          (classifyTelegramError (wrapSendError r m)).floodWaitSeconds.getD 0 * 1000
         else 0)) := by
  have hstep : stepRecipient r o st =
      handleCaught r o { st with processed := st.processed + 1 } (wrapSendError r m) := by
    simp [stepRecipient, hsend]
  constructor
  · intro hperm
    cases hlsk : o.logSkippedError with
    | some e =>
      have hc : (stepRecipient r o st).1 =
          { st with processed := st.processed + 1, skipped := st.skipped + 1 } := by
        rw [hstep]
        simp [handleCaught, hperm, hlsk]
      rw [hc]
      refine ⟨rfl, rfl, rfl, rfl, fun out hout => Or.inl hout, fun hnone => ?_⟩
      exact Option.noConfusion hnone
    | none =>
      have hc : (stepRecipient r o st).1 =
          { st with
            processed := st.processed + 1,
            skipped := st.skipped + 1,
            outcomes := st.outcomes ++
              [{ recipient := r, status := "skipped",
                 errorMessage := some ("Permanent error: " ++
                   typeName (classifyTelegramError (wrapSendError r m)).type) }] } := by
        rw [hstep]
        simp [handleCaught, hperm, hlsk]
      rw [hc]
      refine ⟨rfl, rfl, rfl, rfl, ?_, fun _ => rfl⟩
      intro out hout
      simp only [List.mem_append, List.mem_singleton] at hout
      rcases hout with h | h
      · exact Or.inl h
      · right
        rw [h]
  · intro hperm hlf
    by_cases hfw : (classifyTelegramError (wrapSendError r m)).isFloodWait = true
    · by_cases hz : (classifyTelegramError (wrapSendError r m)).floodWaitSeconds.getD 0 = 0
      · have hc : (stepRecipient r o st).1 =
            { st with
              processed := st.processed + 1,
              failed := st.failed + 1,
              shouldRetry := true,
              failCount := st.failCount + 1,
              outcomes := st.outcomes ++
                [{ recipient := r, status := "failed",
                   errorMessage := some ("Retryable error: " ++
                     typeName (classifyTelegramError (wrapSendError r m)).type) }] } := by
          rw [hstep]
          simp [handleCaught, hperm, hlf, hfw, hz]
        rw [hc]
        refine ⟨rfl, rfl, rfl, rfl, rfl, ?_⟩
        simp [hfw, hz]
      · have hc : (stepRecipient r o st).1 =
            { st with
              processed := st.processed + 1,
              failed := st.failed + 1,
              shouldRetry := true,
              failCount := st.failCount + 1,
              outcomes := st.outcomes ++
                [{ recipient := r, status := "failed",
                   errorMessage := some ("Retryable error: " ++
                     typeName (classifyTelegramError (wrapSendError r m)).type) }],
              floodSleeps := st.floodSleeps ++
                [(classifyTelegramError (wrapSendError r m)).floodWaitSeconds.getD 0 * 1000] } := by
          rw [hstep]
          simp [handleCaught, hperm, hlf, hfw, hz]
        rw [hc]
        refine ⟨rfl, rfl, rfl, rfl, rfl, ?_⟩
        simp [hfw]
    · have hc : (stepRecipient r o st).1 =
          { st with
            processed := st.processed + 1,
            failed := st.failed + 1,
            shouldRetry := true,
            failCount := st.failCount + 1,
            outcomes := st.outcomes ++
              [{ recipient := r, status := "failed",
                 errorMessage := some ("Retryable error: " ++
                   typeName (classifyTelegramError (wrapSendError r m)).type) }] } := by
        rw [hstep]
        simp [handleCaught, hperm, hlf, hfw]
      rw [hc]
      refine ⟨rfl, rfl, rfl, rfl, rfl, ?_⟩
      simp [hfw]

/-- Witness for C3: the permanent branch at `USER_IS_BOT`, and the
non-permanent flood branch at `FLOOD_WAIT_4`, on the initial state of a
single-recipient attempt. -/
theorem permanentErrorRouting_witness :
    (stepRecipient "u" { sendError := some "USER_IS_BOT" } (initialLoopState 1)).1.skipped =
      (initialLoopState 1).skipped + 1 ∧
    (stepRecipient "u" { sendError := some "USER_IS_BOT" } (initialLoopState 1)).1.failCount =
      (initialLoopState 1).failCount ∧
    (stepRecipient "u" { sendError := some "FLOOD_WAIT_4" } (initialLoopState 1)).1.failed =
      (initialLoopState 1).failed + 1 := by
  have h1 := permanentErrorRouting "u" "USER_IS_BOT"
    { sendError := some "USER_IS_BOT" } (initialLoopState 1) rfl
  have h2 := permanentErrorRouting "u" "FLOOD_WAIT_4"
    { sendError := some "FLOOD_WAIT_4" } (initialLoopState 1) rfl
  have hp1 := h1.1 (by decide)
  have hp2 := h2.2 (by decide) rfl
  exact ⟨hp1.1, hp1.2.2.2.1, hp2.1⟩

/-- The base delay is never negative (it is 1000, 750 or 500 ms). -/
theorem getBaseDelay_nonneg (age : Nat) : 0 ≤ getBaseDelay age := by
  unfold getBaseDelay
  split
  · norm_num
  · split <;> norm_num

/-- Rounding is monotone over the reals. -/
theorem round_mono_real {x y : ℝ} (h : x ≤ y) : round x ≤ round y := by
  rw [round_eq, round_eq]
  exact Int.floor_mono (by linarith)

/-- Clamping to `[0, 5000]` lands in `[0, 5000]`. -/
theorem clamp_bounds (z : ℤ) : 0 ≤ min (max z 0) 5000 ∧ min (max z 0) 5000 ≤ 5000 :=
  ⟨le_min (le_max_right _ _) (by norm_num), min_le_right _ _⟩

/-- For a fixed nonnegative random draw, `nextDelay` is monotone in the
failure rate: the backoff exponent grows, every other factor is nonnegative,
and rounding and clamping preserve order. -/
theorem nextDelay_mono (base : ℝ) (hbase : 0 ≤ base) (fw : Bool) (rand : ℝ)
    (hrand : 0 ≤ rand) {r1 r2 : ℝ} (h : r1 ≤ r2) :
    nextDelay base r1 fw rand ≤ nextDelay base r2 fw rand := by
  have hbf : (1.5 : ℝ) ^ (max 0 r1) ≤ (1.5 : ℝ) ^ (max 0 r2) :=
    (Real.rpow_le_rpow_left_iff (by norm_num)).mpr (max_le_max le_rfl h)
  have hd1 : base * ((1.5 : ℝ) ^ (max 0 r1)) ≤ base * ((1.5 : ℝ) ^ (max 0 r2)) :=
    mul_le_mul_of_nonneg_left hbf hbase
  have hj : (0 : ℝ) ≤ 1 + (rand - 0.5) * 2 * 0.2 := by nlinarith
  simp only [nextDelay]
  cases fw with
  | false =>
    simp only [Bool.false_eq_true, if_false]
    have hd3 : base * ((1.5 : ℝ) ^ (max 0 r1)) +
        (rand - 0.5) * 2 * (base * ((1.5 : ℝ) ^ (max 0 r1)) * 0.2) ≤
        base * ((1.5 : ℝ) ^ (max 0 r2)) +
        (rand - 0.5) * 2 * (base * ((1.5 : ℝ) ^ (max 0 r2)) * 0.2) := by
      nlinarith [mul_nonneg (sub_nonneg.mpr hd1) hj]
    exact min_le_min (max_le_max (round_mono_real hd3) le_rfl) le_rfl
  | true =>
    simp only [if_true]
    have hd2 : base * ((1.5 : ℝ) ^ (max 0 r1)) * 3 ≤ base * ((1.5 : ℝ) ^ (max 0 r2)) * 3 :=
      mul_le_mul_of_nonneg_right hd1 (by norm_num)
    have hd3 : base * ((1.5 : ℝ) ^ (max 0 r1)) * 3 +
        (rand - 0.5) * 2 * (base * ((1.5 : ℝ) ^ (max 0 r1)) * 3 * 0.2) ≤
        base * ((1.5 : ℝ) ^ (max 0 r2)) * 3 +
        (rand - 0.5) * 2 * (base * ((1.5 : ℝ) ^ (max 0 r2)) * 3 * 0.2) := by
      nlinarith [mul_nonneg (sub_nonneg.mpr hd2) hj]
    exact min_le_min (max_le_max (round_mono_real hd3) le_rfl) le_rfl

/-- Claim C6: for every pacing state and flood-wait flag the computed delay
lies in `[0, 5000]` ms, and for a fixed nonnegative jitter draw the delay is
monotonically non-decreasing in the failure rate
`failures / (successes + failures)`. -/
theorem calculateDelay_bounds_mono (age : Nat) (fw : Bool) (rand : ℝ) :
    (∀ s f : Nat, 0 ≤ calculateDelayModel age s f fw rand ∧
      calculateDelayModel age s f fw rand ≤ 5000) ∧
    (0 ≤ rand → ∀ s1 f1 s2 f2 : Nat,
      pacingFailureRate s1 f1 ≤ pacingFailureRate s2 f2 →
      calculateDelayModel age s1 f1 fw rand ≤ calculateDelayModel age s2 f2 fw rand) := by
  constructor
  · intro s f
    exact clamp_bounds _
  · intro hrand s1 f1 s2 f2 hrate
    exact nextDelay_mono (getBaseDelay age) (getBaseDelay_nonneg age) fw rand hrand hrate

/-- Witness for C6 at account age 0, no flood wait, jitter draw 1/2, pacing
states (0 successes, 0 failures) and (0 successes, 1 failure). -/
theorem calculateDelay_bounds_mono_witness :
    0 ≤ calculateDelayModel 0 0 0 false (1 / 2) ∧
    calculateDelayModel 0 0 0 false (1 / 2) ≤ 5000 ∧
    calculateDelayModel 0 0 0 false (1 / 2) ≤ calculateDelayModel 0 0 1 false (1 / 2) := by
  have h := calculateDelay_bounds_mono 0 false (1 / 2)
  have hb := h.1 0 0
  have hm := h.2 (by norm_num) 0 0 0 1 (by norm_num [pacingFailureRate])
  exact ⟨hb.1, hb.2, hm⟩

/-- Field effects of the per-recipient catch block: it never touches
`processed`, `sent`, `succCount` or the snapshot trace; it adds exactly one
to `failed + skipped`; and it preserves the invariant that a nonzero `failed`
counter implies `shouldRetry`. -/
theorem handleCaught_shape (r : String) (o : RecipientOracle) (st : LoopState) (m : String) :
    (handleCaught r o st m).1.processed = st.processed ∧
    (handleCaught r o st m).1.sent = st.sent ∧
    (handleCaught r o st m).1.snapshots = st.snapshots ∧
    (handleCaught r o st m).1.failed + (handleCaught r o st m).1.skipped =
      st.failed + st.skipped + 1 ∧
    ((st.failed ≠ 0 → st.shouldRetry = true) →
      (handleCaught r o st m).1.failed ≠ 0 → (handleCaught r o st m).1.shouldRetry = true) := by
  unfold handleCaught
  dsimp only
  split
  · cases hls : o.logSkippedError
    · refine ⟨by simp, by simp, by simp, by simp; omega, ?_⟩
      intro h hf
      simpa using h (by simpa using hf)
    · refine ⟨by simp, by simp, by simp, by simp; omega, ?_⟩
      intro h hf
      simpa using h (by simpa using hf)
  · cases hlf : o.logFailedError
    · simp only []
      split
      · refine ⟨by simp, by simp, by simp, by simp; omega, ?_⟩
        intro _ _
        simp
      · refine ⟨by simp, by simp, by simp, by simp; omega, ?_⟩
        intro _ _
        simp
    · refine ⟨by simp, by simp, by simp, by simp; omega, ?_⟩
      intro _ _
      simp

/-- Field effects of one loop iteration: `processed` grows by exactly one,
the snapshot trace is untouched (the snapshot is written after the step), the
`failed ≠ 0 → shouldRetry` invariant is preserved, and — provided the
`sent`-outcome write cannot throw — so is the accounting invariant
`processed = sent + failed + skipped`. -/
theorem stepRecipient_shape (r : String) (o : RecipientOracle) (st : LoopState) :
    (stepRecipient r o st).1.processed = st.processed + 1 ∧
    (stepRecipient r o st).1.snapshots = st.snapshots ∧
    ((st.failed ≠ 0 → st.shouldRetry = true) →
      (stepRecipient r o st).1.failed ≠ 0 → (stepRecipient r o st).1.shouldRetry = true) ∧
    (o.logSentError = none → st.processed = st.sent + st.failed + st.skipped →
      (stepRecipient r o st).1.processed =
        (stepRecipient r o st).1.sent + (stepRecipient r o st).1.failed +
          (stepRecipient r o st).1.skipped) := by
  cases hse : o.sendError with
  | none =>
    cases hlse : o.logSentError with
    | none =>
      simp only [stepRecipient, hse, hlse]
      refine ⟨by simp, by simp, ?_, ?_⟩
      · intro h hf
        exact h (by simpa using hf)
      · intro _ hsum
        omega
    | some msg =>
      simp only [stepRecipient, hse, hlse]
      obtain ⟨hp, hsent, hsnap, hfs, hsr⟩ := handleCaught_shape r o
        { st with
          processed := st.processed + 1
          succCount := st.succCount + 1
          sent := st.sent + 1 } msg
      simp only at hp hsent hsnap hfs
      refine ⟨by simpa using hp, by simpa using hsnap, ?_, ?_⟩
      · intro h
        exact hsr h
      · intro hx
        exact Option.noConfusion hx
  | some m =>
    simp only [stepRecipient, hse]
    obtain ⟨hp, hsent, hsnap, hfs, hsr⟩ := handleCaught_shape r o
      { st with processed := st.processed + 1 } (wrapSendError r m)
    simp only at hp hsent hsnap hfs
    refine ⟨by simpa using hp, by simpa using hsnap, ?_, ?_⟩
    · intro h
      exact hsr h
    · intro _ hsum
      omega

/-- The `failed ≠ 0 → shouldRetry` invariant survives the whole loop: any run
that has a nonzero `failed` counter has set the retry flag. -/
theorem runLoop_retryInv (oracle : Nat → RecipientOracle) (rs : List String)
    (idx total : Nat) (st : LoopState) (h : st.failed ≠ 0 → st.shouldRetry = true) :
    (runLoop oracle rs idx total st).1.failed ≠ 0 →
      (runLoop oracle rs idx total st).1.shouldRetry = true := by
  induction rs generalizing idx st with
  | nil => simpa [runLoop] using h
  | cons r rs ih =>
    rcases hstep : stepRecipient r (oracle idx) st with ⟨st1, e⟩
    have hsh : st1.failed ≠ 0 → st1.shouldRetry = true := by
      have h0 := (stepRecipient_shape r (oracle idx) st).2.2.1 h
      rw [hstep] at h0
      exact h0
    cases e with
    | some err =>
      simp only [runLoop, hstep]
      exact hsh
    | none =>
      simp only [runLoop, hstep]
      exact ih (idx + 1) _ hsh

/-- The loop advances `processed` at most once per remaining recipient. -/
theorem runLoop_processed_le (oracle : Nat → RecipientOracle) (rs : List String)
    (idx total : Nat) (st : LoopState) :
    (runLoop oracle rs idx total st).1.processed ≤ st.processed + rs.length := by
  induction rs generalizing idx st with
  | nil => simp [runLoop]
  | cons r rs ih =>
    rcases hstep : stepRecipient r (oracle idx) st with ⟨st1, e⟩
    have hp : st1.processed = st.processed + 1 := by
      have h0 := (stepRecipient_shape r (oracle idx) st).1
      rw [hstep] at h0
      exact h0
    cases e with
    | some err =>
      simp only [runLoop, hstep, List.length_cons]
      omega
    | none =>
      simp only [runLoop, hstep, List.length_cons]
      have hrec := ih (idx + 1) { st1 with snapshots := st1.snapshots ++ [sendingSnap st1 total] }
      have hrec2 : (runLoop oracle rs (idx + 1) total
          { st1 with snapshots := st1.snapshots ++ [sendingSnap st1 total] }).1.processed ≤
          st1.processed + rs.length := hrec
      omega

/-- When no `sent`-outcome write can throw, the accounting invariant
`processed = sent + failed + skipped` holds in the final loop state and in
every `sending` snapshot the loop has written. -/
theorem runLoop_sumInv (oracle : Nat → RecipientOracle) (rs : List String)
    (idx total : Nat) (st : LoopState)
    (hlog : ∀ i, (oracle i).logSentError = none)
    (hinv : st.processed = st.sent + st.failed + st.skipped)
    (hsnap : ∀ s ∈ st.snapshots, s.status = "sending" →
      s.processed = s.sent + s.failed + s.skipped) :
    (runLoop oracle rs idx total st).1.processed =
      (runLoop oracle rs idx total st).1.sent + (runLoop oracle rs idx total st).1.failed +
        (runLoop oracle rs idx total st).1.skipped ∧
    ∀ s ∈ (runLoop oracle rs idx total st).1.snapshots, s.status = "sending" →
      s.processed = s.sent + s.failed + s.skipped := by
  induction rs generalizing idx st with
  | nil => exact ⟨hinv, hsnap⟩
  | cons r rs ih =>
    rcases hstep : stepRecipient r (oracle idx) st with ⟨st1, e⟩
    have hinv1 : st1.processed = st1.sent + st1.failed + st1.skipped := by
      have h0 := (stepRecipient_shape r (oracle idx) st).2.2.2 (hlog idx) hinv
      rw [hstep] at h0
      exact h0
    have hsnap1 : st1.snapshots = st.snapshots := by
      have h0 := (stepRecipient_shape r (oracle idx) st).2.1
      rw [hstep] at h0
      exact h0
    cases e with
    | some err =>
      simp only [runLoop, hstep]
      exact ⟨hinv1, fun s hs => hsnap s (by rwa [hsnap1] at hs)⟩
    | none =>
      simp only [runLoop, hstep]
      refine ih (idx + 1) _ hinv1 ?_
      intro s hs hstatus
      simp only [List.mem_append, List.mem_singleton] at hs
      rcases hs with hs | hs
      · exact hsnap s (by rwa [hsnap1] at hs) hstatus
      · rw [hs]
        exact hinv1

/-- Snapshots are written with the current `processed` value, so within one
attempt the snapshot trace is monotone in `processed` and bounded by the
final `processed`. -/
theorem runLoop_snapMono (oracle : Nat → RecipientOracle) (rs : List String)
    (idx total : Nat) (st : LoopState)
    (hub : ∀ s ∈ st.snapshots, s.processed ≤ st.processed)
    (hmono : List.Pairwise (fun a b : Snapshot => a.processed ≤ b.processed) st.snapshots) :
    (∀ s ∈ (runLoop oracle rs idx total st).1.snapshots,
      s.processed ≤ (runLoop oracle rs idx total st).1.processed) ∧
    List.Pairwise (fun a b : Snapshot => a.processed ≤ b.processed)
      (runLoop oracle rs idx total st).1.snapshots := by
  induction rs generalizing idx st with
  | nil => exact ⟨hub, hmono⟩
  | cons r rs ih =>
    rcases hstep : stepRecipient r (oracle idx) st with ⟨st1, e⟩
    have hp : st1.processed = st.processed + 1 := by
      have h0 := (stepRecipient_shape r (oracle idx) st).1
      rw [hstep] at h0
      exact h0
    have hsnap1 : st1.snapshots = st.snapshots := by
      have h0 := (stepRecipient_shape r (oracle idx) st).2.1
      rw [hstep] at h0
      exact h0
    cases e with
    | some err =>
      simp only [runLoop, hstep]
      refine ⟨fun s hs => ?_, by rwa [hsnap1]⟩
      have := hub s (by rwa [hsnap1] at hs)
      omega
    | none =>
      simp only [runLoop, hstep]
      refine ih (idx + 1) _ ?_ ?_
      · intro s hs
        simp only [List.mem_append, List.mem_singleton] at hs
        rcases hs with hs | hs
        · have := hub s (by rwa [hsnap1] at hs)
          simp only [sendingSnap]
          omega
        · rw [hs]
          simp [sendingSnap]
      · rw [List.pairwise_append]
        refine ⟨by rwa [hsnap1], List.pairwise_singleton _ _, ?_⟩
        intro a ha b hb
        rw [List.mem_singleton] at hb
        have := hub a (by rwa [hsnap1] at ha)
        rw [hb]
        simp only [sendingSnap]
        omega

/-- The last element of a list with one element appended. -/
theorem getLast_append_singleton {α : Type} (l : List α) (a : α) :
    (l ++ [a]).getLast? = some a := by
  simp [List.getLast?_concat]

/-- `Math.round(total / total * 100)` is 100 for a nonempty recipient
list. -/
theorem progressPercent_self (t : Nat) (h : 0 < t) : progressPercent t t = 100 := by
  unfold progressPercent
  rw [if_pos h]
  apply Nat.div_eq_of_lt_le <;> omega

/-- A failure rate above one half needs at least one failed send. -/
theorem failureRateQ_failed_ne_zero (st : LoopState) (h : 1 / 2 < failureRateQ st) :
    st.failed ≠ 0 := by
  intro hf
  unfold failureRateQ at h
  rw [hf] at h
  split at h <;> simp at h <;> norm_num at h


/-- Claim C1 counterexample: with two recipients and a missing Telegram
session the attempt is fatal, and the final `failed` snapshot carries the
recipient count in `skipped`, not in `failed` — the outer catch passes
`(processed, total, sent, failed, skipped) = (2, 2, 0, 0, 2)` positionally —
refuting the claimed `failed = recipientCount` snapshot. -/
theorem fatalSnapshot_counterexample :
    (handleBroadcastJobModel
        { recipients := ["a", "b"], sessionOk := false, oracle := fun _ => ({}) }).snapshots.getLast? =
      some { status := "failed"
             progress := 100
             processed := 2
             total := 2
             sent := 0
             failed := 0
             skipped := 2
             error := some "No Telegram session found for user" } ∧
    (handleBroadcastJobModel
        { recipients := ["a", "b"], sessionOk := false, oracle := fun _ => ({}) }).snapshots.getLast?.map
        Snapshot.failed ≠ some 2 := by
  decide

/-- Claim C1 (amended): whenever `handleBroadcastJob` re-throws an error
`msg` — a missing credential, a connect failure, an exception escaping the
per-recipient handling, or the high-failure-rate re-raise, all of which land
in the outer catch — the last campaign status write is `failed` with metadata
`{error: msg}`, and the last progress snapshot is a `failed` snapshot with
`processed = total = recipientCount`, `sent = failed = 0` and
`skipped = recipientCount` (the recipient count lands in `skipped`, not in
`failed` as the claim stated). -/
theorem fatalErrorFinalizes (inp : RunInput) (msg : String)
    (h : (handleBroadcastJobModel inp).result = Except.error msg) :
    (handleBroadcastJobModel inp).statusUpdates.getLast? =
      some { status := "failed", metadata := some (CampaignMeta.errorMeta msg) } ∧
    (handleBroadcastJobModel inp).snapshots.getLast? =
      some { status := "failed"
             progress := progressPercent inp.recipients.length inp.recipients.length
             processed := inp.recipients.length
             total := inp.recipients.length
             sent := 0
             failed := 0
             skipped := inp.recipients.length
             error := some msg } := by
  unfold handleBroadcastJobModel at h ⊢
  by_cases hs : inp.sessionOk = false
  · rw [if_pos hs] at h ⊢
    have hmsg : "No Telegram session found for user" = msg := by
      simpa [finishFatalTrace] using h
    subst hmsg
    constructor
    · simp [finishFatalTrace, getLast_append_singleton]
    · simp [finishFatalTrace, fatalSnap, getLast_append_singleton]
  · rw [if_neg hs] at h ⊢
    rcases hc : inp.connectError with _ | m
    · simp only [hc] at h ⊢
      rcases hlf : (loopFinal inp).2 with _ | err
      · simp only [hlf] at h ⊢
        simp only [afterLoop] at h ⊢
        by_cases hfr : 1 / 2 < failureRateQ (loopFinal inp).1
        · rw [if_pos hfr] at h ⊢
          by_cases hretry : (loopFinal inp).1.shouldRetry = true
          · rw [if_pos hretry] at h ⊢
            have hmsg : retryErrorMsg = msg := by
              simpa [finishFatalTrace] using h
            subst hmsg
            constructor
            · simp [finishFatalTrace, getLast_append_singleton]
            · simp [finishFatalTrace, fatalSnap, getLast_append_singleton]
          · rw [if_neg hretry] at h
            exact absurd h (by simp)
        · rw [if_neg hfr] at h
          exact absurd h (by simp)
      · simp only [hlf] at h ⊢
        have hmsg : err = msg := by
          simpa [finishFatalTrace] using h
        subst hmsg
        constructor
        · simp [finishFatalTrace, getLast_append_singleton]
        · simp [finishFatalTrace, fatalSnap, getLast_append_singleton]
    · simp only [hc] at h ⊢
      have hmsg : m = msg := by
        simpa [finishFatalTrace] using h
      subst hmsg
      constructor
      · simp [finishFatalTrace, getLast_append_singleton]
      · simp [finishFatalTrace, fatalSnap, getLast_append_singleton]

/-- Witness for the amended C1 theorem: the missing-session run on one
recipient. -/
theorem fatalErrorFinalizes_witness :
    (handleBroadcastJobModel
        { recipients := ["a"], sessionOk := false, oracle := fun _ => ({}) }).statusUpdates.getLast? =
      some { status := "failed"
             metadata := some (CampaignMeta.errorMeta "No Telegram session found for user") } ∧
    (handleBroadcastJobModel
        { recipients := ["a"], sessionOk := false, oracle := fun _ => ({}) }).snapshots.getLast? =
      some { status := "failed"
             progress := progressPercent 1 1
             processed := 1
             total := 1
             sent := 0
             failed := 0
             skipped := 1
             error := some "No Telegram session found for user" } :=
  fatalErrorFinalizes { recipients := ["a"], sessionOk := false, oracle := fun _ => ({}) }
    "No Telegram session found for user" (by decide)

/-- Claim C2: for every run whose sending loop processes all recipients, if
the failure rate `failed / (sent + failed)` (0 when there is no history)
exceeds one half, the campaign is marked `failed` with
`{sent, failed, skipped, failureRate}` metadata, a `failed` snapshot at
progress 100 is written, and an error is raised to the job queue; at or
below one half, the threshold does not trigger and the campaign is marked
`completed`. -/
theorem terminalDecision (inp : RunInput)
    (hsess : inp.sessionOk = true) (hconn : inp.connectError = none)
    (hloop : (loopFinal inp).2 = none) :
    (1 / 2 < failureRateQ (loopFinal inp).1 →
      ({ status := "failed"
         metadata := some (CampaignMeta.failureMeta (loopFinal inp).1.sent
           (loopFinal inp).1.failed (loopFinal inp).1.skipped
           (round (failureRateQ (loopFinal inp).1 * 100)).toNat
           "High failure rate threshold exceeded") } : StatusUpdate) ∈
        (handleBroadcastJobModel inp).statusUpdates ∧
      failedRateSnap inp.recipients.length (loopFinal inp).1 ∈
        (handleBroadcastJobModel inp).snapshots ∧
      (failedRateSnap inp.recipients.length (loopFinal inp).1).status = "failed" ∧
      (failedRateSnap inp.recipients.length (loopFinal inp).1).progress = 100 ∧
      (handleBroadcastJobModel inp).result = Except.error retryErrorMsg) ∧
    (failureRateQ (loopFinal inp).1 ≤ 1 / 2 →
      (handleBroadcastJobModel inp).statusUpdates =
        [startUpdate,
         { status := "completed"
           metadata := some (CampaignMeta.completedMeta (loopFinal inp).1.sent
             (loopFinal inp).1.failed (loopFinal inp).1.skipped inp.recipients.length) }] ∧
      (handleBroadcastJobModel inp).result =
        Except.ok { sent := (loopFinal inp).1.sent, failed := (loopFinal inp).1.failed,
                    skipped := (loopFinal inp).1.skipped, success := true }) := by
  have hsf : ¬inp.sessionOk = false := by simp [hsess]
  unfold handleBroadcastJobModel
  rw [if_neg hsf]
  simp only [hconn, hloop, afterLoop]
  constructor
  · intro hfr
    have hfailed : (loopFinal inp).1.failed ≠ 0 := failureRateQ_failed_ne_zero _ hfr
    have hretry : (loopFinal inp).1.shouldRetry = true := by
      have h0 := runLoop_retryInv inp.oracle inp.recipients 0 inp.recipients.length
        (initialLoopState inp.recipients.length) (fun hf => absurd rfl hf)
      exact h0 hfailed
    have htot : 0 < inp.recipients.length := by
      rcases hrec : inp.recipients with _ | ⟨r, rs⟩
      · exfalso
        apply hfailed
        show (runLoop inp.oracle inp.recipients 0 inp.recipients.length
          (initialLoopState inp.recipients.length)).1.failed = 0
        rw [hrec]
        rfl
      · simp [hrec]
    rw [if_pos hfr, if_pos hretry]
    refine ⟨by simp [finishFatalTrace], by simp [finishFatalTrace], rfl, ?_, ?_⟩
    · simp [failedRateSnap, progressPercent_self _ htot]
    · simp [finishFatalTrace]
  · intro hle
    rw [if_neg (not_lt.mpr hle)]
    exact ⟨rfl, rfl⟩

/-- Witness for C2: a 100% failure run raises the retry error; a run with
failure rate exactly one half completes. -/
theorem terminalDecision_witness :
    (handleBroadcastJobModel highFailureInput).result = Except.error retryErrorMsg ∧
    (handleBroadcastJobModel boundaryInput).result =
      Except.ok { sent := 1, failed := 1, skipped := 0, success := true } := by
  have h1 := terminalDecision highFailureInput rfl rfl (by decide)
  have h2 := terminalDecision boundaryInput rfl rfl (by decide)
  have hfr1 : 1 / 2 < failureRateQ (loopFinal highFailureInput).1 := by
    have hs : (loopFinal highFailureInput).1.sent = 0 := by decide
    have hf : (loopFinal highFailureInput).1.failed = 2 := by decide
    unfold failureRateQ
    rw [hs, hf]
    norm_num
  have hfr2 : failureRateQ (loopFinal boundaryInput).1 ≤ 1 / 2 := by
    have hs : (loopFinal boundaryInput).1.sent = 1 := by decide
    have hf : (loopFinal boundaryInput).1.failed = 1 := by decide
    unfold failureRateQ
    rw [hs, hf]
    norm_num
  refine ⟨(h1.1 hfr1).2.2.2.2, ?_⟩
  have h3 := (h2.2 hfr2).2
  have hs : (loopFinal boundaryInput).1.sent = 1 := by decide
  have hf : (loopFinal boundaryInput).1.failed = 1 := by decide
  have hsk : (loopFinal boundaryInput).1.skipped = 0 := by decide
  rw [hs, hf, hsk] at h3
  exact h3

/-- Appending a snapshot whose `processed` dominates the list keeps the trace
monotone. -/
theorem pairwise_snoc_ge (l : List Snapshot) (a : Snapshot)
    (hmono : List.Pairwise (fun x y : Snapshot => x.processed ≤ y.processed) l)
    (hb : ∀ s ∈ l, s.processed ≤ a.processed) :
    List.Pairwise (fun x y : Snapshot => x.processed ≤ y.processed) (l ++ [a]) := by
  rw [List.pairwise_append]
  refine ⟨hmono, List.pairwise_singleton _ _, ?_⟩
  intro x hx y hy
  rw [List.mem_singleton] at hy
  rw [hy]
  exact hb x hx

/-- An upper bound on `processed` extends over an appended snapshot that
respects it. -/
theorem snocBound (l : List Snapshot) (a : Snapshot) (bound : Nat)
    (hl : ∀ s ∈ l, s.processed ≤ bound) (ha : a.processed ≤ bound) :
    ∀ s ∈ l ++ [a], s.processed ≤ bound := by
  intro s hs
  rcases List.mem_append.mp hs with h | h
  · exact hl s h
  · rw [List.mem_singleton] at h
    rw [h]
    exact ha

/-- Claim C7 (amended): every loop iteration increments `processed` by
exactly one, and the snapshot trace of a whole invocation is monotonically
non-decreasing in `processed`; the accounting invariant
`processed = sent + failed + skipped` holds at every `sending` snapshot
provided no `sent`-outcome log write throws (a throwing `sent`-outcome write
is classified like a send failure and double-counts the recipient as both
`sent` and `failed`). -/
theorem progressInvariants (inp : RunInput) :
    (∀ (r : String) (o : RecipientOracle) (st : LoopState),
      (stepRecipient r o st).1.processed = st.processed + 1) ∧
    List.Pairwise (· ≤ ·) ((handleBroadcastJobModel inp).snapshots.map Snapshot.processed) ∧
    ((∀ i, (inp.oracle i).logSentError = none) →
      ∀ snap ∈ (handleBroadcastJobModel inp).snapshots, snap.status = "sending" →
        snap.processed = snap.sent + snap.failed + snap.skipped) := by
  have hub0 : ∀ s ∈ (initialLoopState inp.recipients.length).snapshots,
      s.processed ≤ (initialLoopState inp.recipients.length).processed := by
    intro s hs
    simp only [initialLoopState, initSnap, List.mem_cons, List.not_mem_nil, or_false] at hs
    rcases hs with rfl | rfl <;> simp
  have hmono0 : List.Pairwise (fun x y : Snapshot => x.processed ≤ y.processed)
      (initialLoopState inp.recipients.length).snapshots := by
    simp [initialLoopState, initSnap, List.pairwise_cons]
  have hsm := runLoop_snapMono inp.oracle inp.recipients 0 inp.recipients.length
    (initialLoopState inp.recipients.length) hub0 hmono0
  have hub : ∀ s ∈ (loopFinal inp).1.snapshots,
      s.processed ≤ (loopFinal inp).1.processed := hsm.1
  have hmono : List.Pairwise (fun x y : Snapshot => x.processed ≤ y.processed)
      (loopFinal inp).1.snapshots := hsm.2
  have hple : (loopFinal inp).1.processed ≤ inp.recipients.length := by
    have h0 := runLoop_processed_le inp.oracle inp.recipients 0 inp.recipients.length
      (initialLoopState inp.recipients.length)
    simpa [initialLoopState] using h0
  have hubT : ∀ s ∈ (loopFinal inp).1.snapshots, s.processed ≤ inp.recipients.length :=
    fun s hs => le_trans (hub s hs) hple
  refine ⟨fun r o st => (stepRecipient_shape r o st).1, ?_, ?_⟩
  · rw [List.pairwise_map]
    unfold handleBroadcastJobModel
    by_cases hs : inp.sessionOk = false
    · rw [if_pos hs]
      simp [finishFatalTrace, initSnap, fatalSnap, List.pairwise_cons]
    · rw [if_neg hs]
      rcases hc : inp.connectError with _ | m
      · simp only [hc]
        rcases hlf : (loopFinal inp).2 with _ | err
        · simp only [hlf, afterLoop]
          by_cases hfr : 1 / 2 < failureRateQ (loopFinal inp).1
          · rw [if_pos hfr]
            by_cases hretry : (loopFinal inp).1.shouldRetry = true
            · rw [if_pos hretry]
              simp only [finishFatalTrace]
              apply pairwise_snoc_ge
              · exact pairwise_snoc_ge _ _ hmono (fun s hs => hubT s hs)
              · exact snocBound _ _ _ (fun s hs => hubT s hs) le_rfl
            · rw [if_neg hretry]
              exact pairwise_snoc_ge _ _ hmono (fun s hs => hubT s hs)
          · rw [if_neg hfr]
            exact pairwise_snoc_ge _ _ hmono (fun s hs => hubT s hs)
        · simp only [hlf, finishFatalTrace]
          exact pairwise_snoc_ge _ _ hmono (fun s hs => hubT s hs)
      · simp only [hc]
        simp [finishFatalTrace, initSnap, fatalSnap, List.pairwise_cons]
  · intro hlog
    have hsnap0 : ∀ s ∈ (initialLoopState inp.recipients.length).snapshots,
        s.status = "sending" → s.processed = s.sent + s.failed + s.skipped := by
      intro s hs
      simp only [initialLoopState, initSnap, List.mem_cons, List.not_mem_nil, or_false] at hs
      rcases hs with rfl | rfl
      · intro habs
        simp [initSnap] at habs
      · intro _
        rfl
    have hsum := runLoop_sumInv inp.oracle inp.recipients 0 inp.recipients.length
      (initialLoopState inp.recipients.length) hlog rfl hsnap0
    have hloopSnap : ∀ s ∈ (loopFinal inp).1.snapshots, s.status = "sending" →
        s.processed = s.sent + s.failed + s.skipped := hsum.2
    unfold handleBroadcastJobModel
    by_cases hs : inp.sessionOk = false
    · rw [if_pos hs]
      intro snap hmem hstat
      simp only [finishFatalTrace, fatalSnap, initSnap, List.mem_append, List.mem_cons,
        List.not_mem_nil, or_false, List.mem_singleton] at hmem
      rcases hmem with rfl | rfl <;> simp [initSnap, fatalSnap] at hstat
    · rw [if_neg hs]
      rcases hc : inp.connectError with _ | m
      · simp only [hc]
        rcases hlf : (loopFinal inp).2 with _ | err
        · simp only [hlf, afterLoop]
          by_cases hfr : 1 / 2 < failureRateQ (loopFinal inp).1
          · rw [if_pos hfr]
            by_cases hretry : (loopFinal inp).1.shouldRetry = true
            · rw [if_pos hretry]
              intro snap hmem hstat
              simp only [finishFatalTrace, List.mem_append, List.mem_singleton] at hmem
              rcases hmem with (hmem | rfl) | rfl
              · exact hloopSnap snap hmem hstat
              · simp [failedRateSnap] at hstat
              · simp [fatalSnap] at hstat
            · rw [if_neg hretry]
              intro snap hmem hstat
              simp only [List.mem_append, List.mem_singleton] at hmem
              rcases hmem with hmem | rfl
              · exact hloopSnap snap hmem hstat
              · simp [failedRateSnap] at hstat
          · rw [if_neg hfr]
            intro snap hmem hstat
            simp only [List.mem_append, List.mem_singleton] at hmem
            rcases hmem with hmem | rfl
            · exact hloopSnap snap hmem hstat
            · simp [failedRateSnap] at hstat
        · simp only [hlf, finishFatalTrace]
          intro snap hmem hstat
          simp only [List.mem_append, List.mem_singleton] at hmem
          rcases hmem with hmem | rfl
          · exact hloopSnap snap hmem hstat
          · simp [fatalSnap] at hstat
      · simp only [hc]
        intro snap hmem hstat
        simp only [finishFatalTrace, fatalSnap, initSnap, List.mem_append, List.mem_cons,
          List.not_mem_nil, or_false, List.mem_singleton] at hmem
        rcases hmem with rfl | rfl <;> simp [initSnap, fatalSnap] at hstat

/-- Claim C7 counterexample: one recipient whose send succeeds but whose
`sent`-outcome database write throws. The error is caught by the
per-recipient catch and classified as a retryable failure, so the snapshot
written after the recipient has `processed = 1` but
`sent + failed + skipped = 2` — the claimed invariant fails at a
per-recipient snapshot write. -/
theorem progressInvariants_counterexample :
    ((loopFinal
        { recipients := ["a"], sessionOk := true,
          oracle := fun _ => ({ logSentError := some "insert failed" }) }).1.snapshots.get? 2).map
      (fun s => (s.status, s.processed, s.sent + s.failed + s.skipped)) =
      some ("sending", 1, 2) := by
  decide

/-- Witness for the amended C7 theorem: the snapshot trace of a concrete
run is monotone, and with throw-free outcome logging every `sending`
snapshot satisfies the accounting invariant; the per-iteration increment is
exercised on the initial state. -/
theorem progressInvariants_witness :
    List.Pairwise (· ≤ ·)
      ((handleBroadcastJobModel
        { recipients := ["a"], sessionOk := false, oracle := fun _ => ({}) }).snapshots.map
        Snapshot.processed) ∧
    (∀ snap ∈ (handleBroadcastJobModel
        { recipients := ["a"], sessionOk := false, oracle := fun _ => ({}) }).snapshots,
      snap.status = "sending" → snap.processed = snap.sent + snap.failed + snap.skipped) ∧
    (stepRecipient "u" ({} : RecipientOracle) (initialLoopState 1)).1.processed =
      (initialLoopState 1).processed + 1 := by
  have h := progressInvariants
    { recipients := ["a"], sessionOk := false, oracle := fun _ => ({}) }
  exact ⟨h.2.1, h.2.2 (fun _ => rfl), h.1 "u" {} (initialLoopState 1)⟩

/-- Claim C4 (code bug): a run that opens the client session and then hits an
error escaping the per-recipient handling — here, a permanent-error recipient
whose `skipped`-outcome database write throws — reaches the outer catch and
re-throws without ever calling `client.disconnect()`: the handler has no
`finally`, so the session stays open on this path. -/
theorem clientLeakOnLoopEscape :
    (handleBroadcastJobModel
        { recipients := ["a"], sessionOk := true,
          oracle := fun _ => ({ sendError := some "PEER_ID_INVALID",
                                logSkippedError := some "database write failed" }) }).connected =
      true ∧
    (handleBroadcastJobModel
        { recipients := ["a"], sessionOk := true,
          oracle := fun _ => ({ sendError := some "PEER_ID_INVALID",
                                logSkippedError := some "database write failed" }) }).disconnected =
      false ∧
    (handleBroadcastJobModel
        { recipients := ["a"], sessionOk := true,
          oracle := fun _ => ({ sendError := some "PEER_ID_INVALID",
                                logSkippedError := some "database write failed" }) }).result =
      Except.error "database write failed" := by
  decide
